import Mathlib

/-
Verification development for the disease-support-finder repository.

The repository's `src/` tree holds the TypeScript frontend: the data model
(`frontend/src/types/index.ts`, `frontend/src/types/llm_enhanced.ts`), the
components that consume it, and the HTTP client services.  The backend
handlers behind the REST surface are not part of the tree; where a property
is decided by a missing backend handler, the corresponding definition below
is modelled from the specification and its doc comment says so explicitly.

Timestamps (`check_date`, `added_date`, `last_checked`, `last_updated`) are
ISO-8601 strings in the TypeScript source; their lexicographic order
coincides with chronological order, so they are modelled here as natural
numbers carrying only that order.
-/

namespace DiseaseSupport

/-- Organization type. `frontend/src/types/index.ts` restricts
`SupportOrganization.type` to patient/family/support; the enhanced variant
(`HumanVerificationPanel.tsx` `getTypeLabel`) additionally shows
medical/research/government. -/
inductive OrgType where
  | patient
  | family
  | support
  | medical
  | research
  | government
deriving DecidableEq

/-- Provenance of an organization record, from
`EnhancedSupportOrganization.source` in `frontend/src/types/index.ts`. -/
inductive OrgSource where
  | auto
  | manual
deriving DecidableEq

/-- `DiseaseInfo` from `frontend/src/types/index.ts` (optional lists are
modelled as possibly empty lists). -/
structure DiseaseInfo where
  disease_id : String
  name_ja : String
  name_en : Option String := none
  synonyms_ja : List String := []
  synonyms_en : List String := []
  is_intractable : Bool := false
  is_childhood_chronic : Bool := false
deriving DecidableEq

/-- `SupportOrganization` from `frontend/src/types/index.ts`. -/
structure SupportOrganization where
  name : String
  url : String
  type : OrgType
  description : Option String := none
deriving DecidableEq

/-- `WebsiteAvailabilityRecord` from `frontend/src/types/index.ts`. -/
structure WebsiteAvailabilityRecord where
  url : String
  check_date : Nat
  is_available : Bool
  status_code : Option Nat := none
  response_time_ms : Option Nat := none
  error_message : Option String := none
deriving DecidableEq

/-- `EnhancedSupportOrganization` from `frontend/src/types/index.ts`. -/
structure EnhancedSupportOrganization where
  name : String
  url : String
  type : OrgType
  description : Option String := none
  source : OrgSource
  added_date : Nat
  last_checked : Option Nat := none
  is_available : Bool
  notes : Option String := none
  availability_history : List WebsiteAvailabilityRecord := []
deriving DecidableEq

/-- `ManualEntry` from `frontend/src/types/index.ts`. -/
structure ManualEntry where
  id : String
  disease_id : String
  title : String
  content : String
  url : Option String := none
  entry_type : String
  created_at : Nat
  updated_at : Nat
deriving DecidableEq

/-- `OrganizationCollection` from `frontend/src/types/index.ts`. -/
structure OrganizationCollection where
  disease_id : String
  disease_name : String
  organizations : List EnhancedSupportOrganization
  manual_entries : List ManualEntry
  last_updated : Nat
deriving DecidableEq

/-- Per-organization row of `WebsiteStatusResponse.organizations` in
`frontend/src/types/index.ts`. -/
structure WebsiteStatusOrgRow where
  name : String
  url : String
  is_available : Bool
  last_checked : Option Nat
  history : List WebsiteAvailabilityRecord
deriving DecidableEq

/-- `WebsiteStatusResponse` from `frontend/src/types/index.ts`. -/
structure WebsiteStatusResponse where
  disease_id : String
  disease_name : String
  total_organizations : Nat
  available_count : Nat
  unavailable_count : Nat
  organizations : List WebsiteStatusOrgRow
deriving DecidableEq

/-- One row of `AllWebsiteStatusResponse.disease_summary` in
`frontend/src/types/index.ts`. -/
structure DiseaseSummaryRow where
  disease_id : String
  disease_name : String
  total_organizations : Nat
  available_count : Nat
  unavailable_count : Nat
deriving DecidableEq

/-- `AllWebsiteStatusResponse` from `frontend/src/types/index.ts`;
`availability_rate` is a rational number standing for the JSON number. -/
structure AllWebsiteStatusResponse where
  total_diseases : Nat
  total_organizations : Nat
  available_count : Nat
  unavailable_count : Nat
  availability_rate : ℚ
  disease_summary : List DiseaseSummaryRow

/-- `LLMValidationStatus` from `frontend/src/types/llm_enhanced.ts`. -/
inductive LLMValidationStatus where
  | pending
  | extracted
  | verified
  | human_approved
  | rejected
deriving DecidableEq

/-- `TokenUsage` from `frontend/src/types/llm_enhanced.ts`. -/
structure TokenUsage where
  prompt_tokens : Nat
  completion_tokens : Nat
  total_tokens : Nat
  model : String
  timestamp : Nat
deriving DecidableEq

/-- `LLMValidatedOrganization` from `frontend/src/types/llm_enhanced.ts`
(the `id` and `organization_type` fields are the ones the verification
panel reads: `HumanVerificationPanel.tsx` uses `org.id` and
`org.organization_type`). -/
structure LLMValidatedOrganization where
  id : String
  name : String
  url : String
  organization_type : OrgType
  description : Option String := none
  validation_status : LLMValidationStatus
  validation_score : ℚ := 0
  validation_notes : Option String := none
  token_usage : List TokenUsage := []
  human_verified : Bool := false
  human_verification_date : Option Nat := none
  human_verification_notes : Option String := none
deriving DecidableEq

/-- `LLMOrganizationCollection` from `frontend/src/types/llm_enhanced.ts`
(the optional `search_config` is omitted; no claim touches it). -/
structure LLMOrganizationCollection where
  disease_id : String
  disease_name : String
  organizations : List LLMValidatedOrganization
  last_updated : Nat
deriving DecidableEq

/-- `LLMValidationRequest` from `frontend/src/types/llm_enhanced.ts`. -/
structure LLMValidationRequest where
  validation_notes : Option String := none
  approve : Bool
deriving DecidableEq

/-- The two pipeline toggles of `LLMSearchConfig`
(`frontend/src/types/llm_enhanced.ts`). -/
structure PipelineConfig where
  two_step_validation : Bool
  require_human_verification : Bool
deriving DecidableEq

/-! Operations of the human-verification surface (claim C1). -/

/-- Error taxonomy of the validation endpoint (spec section 7: not-found and
conflict). -/
inductive ValidationError where
  | notFound (msg : String)
  | conflict (msg : String)
deriving DecidableEq

/-- The conflict detail returned when a record outside `verified` state is
submitted for human validation. -/
def conflictMsg : String := "Organization is not in verified state"

/-- Modelled from the spec: the decision application inside the backend
handler for POST `/api/validation/organizations/{id}/{org_id}` (the handler
itself is not under `src/`; `src/unnamed/part_002` holds only its client
`validateOrganization`).  Spec section 4.2 `validate`: moves
`verified` to `human_approved` or `rejected`, recording notes and
timestamp. -/
def applyDecision (now : Nat) (req : LLMValidationRequest)
    (org : LLMValidatedOrganization) : LLMValidatedOrganization :=
  { org with
    validation_status :=
      if req.approve then LLMValidationStatus.human_approved
      else LLMValidationStatus.rejected,
    human_verified := true,
    human_verification_date := some now,
    human_verification_notes := req.validation_notes }

/-- Modelled from the spec: the backend handler for POST
`/api/validation/organizations/{id}/{org_id}` over one disease's
collection (the handler is not under `src/`).  Spec section 4.2: human
decision on the organization identified by `orgId`; rejects (as an error)
if the organization is not currently in `verified` state, and on that error
the collection is left as it was. -/
def validateCollection (now : Nat) (c : LLMOrganizationCollection)
    (orgId : String) (req : LLMValidationRequest) :
    LLMOrganizationCollection × Except ValidationError Unit :=
  match c.organizations.find? (fun o => o.id == orgId) with
  | none => (c, Except.error (ValidationError.notFound "Organization not found"))
  | some org =>
    if org.validation_status = LLMValidationStatus.verified then
      ({ c with
          organizations := c.organizations.map
            (fun o => if o.id == orgId then applyDecision now req o else o),
          last_updated := now },
       Except.ok ())
    else
      (c, Except.error (ValidationError.conflict conflictMsg))

/-- `needsVerification` from
`frontend/src/components/HumanVerificationPanel.tsx` lines 141-143. -/
def needsVerification (org : LLMValidatedOrganization) : Bool :=
  org.validation_status = LLMValidationStatus.verified && !org.human_verified

/-! The validation-status state machine (claim C2). -/

/-- Position of a status along the forward chain
pending, extracted, verified, human_approved (spec section 4.2). -/
def statusRank : LLMValidationStatus → Nat
  | LLMValidationStatus.pending => 0
  | LLMValidationStatus.extracted => 1
  | LLMValidationStatus.verified => 2
  | LLMValidationStatus.human_approved => 3
  | LLMValidationStatus.rejected => 3

/-- Modelled from the spec: the transitions the pipeline and the human
surface may perform on `validation_status` (the pipeline code is not under
`src/`; `frontend/src/types/llm_enhanced.ts` declares only the status
enumeration).  Spec section 4.2: scrape-and-classify drives
pending to extracted to verified, with a direct pending-to-verified move
only when `two_step_validation` is disabled; human action drives
verified to human_approved or rejected; reset-to-pending is the only
backward move (spec section 3 invariants). -/
inductive StatusStep (cfg : PipelineConfig) :
    LLMValidationStatus → LLMValidationStatus → Prop where
  | extract :
      StatusStep cfg LLMValidationStatus.pending LLMValidationStatus.extracted
  | classify :
      StatusStep cfg LLMValidationStatus.extracted LLMValidationStatus.verified
  | directVerify (h : cfg.two_step_validation = false) :
      StatusStep cfg LLMValidationStatus.pending LLMValidationStatus.verified
  | humanApprove :
      StatusStep cfg LLMValidationStatus.verified LLMValidationStatus.human_approved
  | humanReject :
      StatusStep cfg LLMValidationStatus.verified LLMValidationStatus.rejected
  | reset (s : LLMValidationStatus) :
      StatusStep cfg s LLMValidationStatus.pending

/-! The website availability tracker (claims C3, C4, C6). -/

/-- Outcome of the HTTP probe behind `checkOne`: either a response with a
status code and a latency, or a transport-level failure. -/
inductive ProbeOutcome where
  | http (status_code : Nat) (response_time_ms : Nat)
  | transportFailure (msg : String)
deriving DecidableEq

/-- Modelled from the spec: the record `checkOne` builds from one probe
outcome (the checker is not under `src/`; `frontend/src/types/index.ts`
declares the record shape).  Spec section 4.1: captures status code,
latency, and any transport error; never throws for network failure —
failure is represented as `is_available=false` with `error_message`
populated. -/
def probeRecord (url : String) (now : Nat) : ProbeOutcome → WebsiteAvailabilityRecord
  | ProbeOutcome.http code ms =>
    { url := url, check_date := now,
      is_available := 200 ≤ code && code < 400,
      status_code := some code,
      response_time_ms := some ms,
      error_message :=
        if 200 ≤ code && code < 400 then none
        else some ("HTTP error: " ++ toString code) }
  | ProbeOutcome.transportFailure msg =>
    { url := url, check_date := now,
      is_available := false,
      status_code := none,
      response_time_ms := none,
      error_message := some msg }

/-- Modelled from the spec: `checkOne` (spec section 4.1) appends the probe
record to the organization's history and updates `is_available` and
`last_checked`. -/
def checkOne (now : Nat) (outcome : ProbeOutcome)
    (org : EnhancedSupportOrganization) : EnhancedSupportOrganization :=
  let r := probeRecord org.url now outcome
  { org with
    availability_history := org.availability_history ++ [r],
    is_available := r.is_available,
    last_checked := some now }

/-- Modelled from the spec: `checkAllForDisease` (spec section 4.1) probes
every organization URL in one disease's collection independently;
`outcomes` gives each URL's probe outcome. -/
def checkAllForDisease (now : Nat) (outcomes : String → ProbeOutcome)
    (c : OrganizationCollection) : OrganizationCollection :=
  { c with
    organizations := c.organizations.map (fun o => checkOne now (outcomes o.url) o),
    last_updated := now }

/-- Modelled from the spec: `checkAll` (spec section 4.1) runs the same
fan-out across every disease's collection. -/
def checkAll (now : Nat) (outcomes : String → ProbeOutcome)
    (store : List OrganizationCollection) : List OrganizationCollection :=
  store.map (checkAllForDisease now outcomes)

/-- History entries are chronologically ordered by `check_date`. -/
def historySorted (h : List WebsiteAvailabilityRecord) : Prop :=
  h.Pairwise (fun a b => a.check_date ≤ b.check_date)

/-- Number of organizations whose website is currently available. -/
def countAvailable (orgs : List EnhancedSupportOrganization) : Nat :=
  (orgs.filter (fun o => o.is_available)).length

/-- Number of organizations whose website is currently unavailable. -/
def countUnavailable (orgs : List EnhancedSupportOrganization) : Nat :=
  (orgs.filter (fun o => !o.is_available)).length

/-- Modelled from the spec: the handler behind GET
`/api/v2/websites/status/{id}` (not under `src/`; its client and the
response shape are in `src/unnamed/part_002` and
`frontend/src/types/index.ts`).  Spec section 8: `total_organizations` is
the size of the disease's collection and the available/unavailable counts
partition it. -/
def getStatus (c : OrganizationCollection) : WebsiteStatusResponse :=
  { disease_id := c.disease_id,
    disease_name := c.disease_name,
    total_organizations := c.organizations.length,
    available_count := countAvailable c.organizations,
    unavailable_count := countUnavailable c.organizations,
    organizations := c.organizations.map (fun o =>
      { name := o.name, url := o.url, is_available := o.is_available,
        last_checked := o.last_checked, history := o.availability_history }) }

/-- Modelled from the spec: the handler behind GET `/api/v2/websites/status`
(not under `src/`).  Spec section 4.1: global counts, an availability rate,
and a per-disease summary table. -/
def getAllStatus (store : List OrganizationCollection) : AllWebsiteStatusResponse :=
  let total := (store.map (fun c => c.organizations.length)).sum
  let avail := (store.map (fun c => countAvailable c.organizations)).sum
  { total_diseases := store.length,
    total_organizations := total,
    available_count := avail,
    unavailable_count := (store.map (fun c => countUnavailable c.organizations)).sum,
    availability_rate := if total = 0 then 0 else (avail : ℚ) / (total : ℚ),
    disease_summary := store.map (fun c =>
      { disease_id := c.disease_id, disease_name := c.disease_name,
        total_organizations := c.organizations.length,
        available_count := countAvailable c.organizations,
        unavailable_count := countUnavailable c.organizations }) }

/-! The single-in-flight background run (claim C5). -/

/-- Process-level task state behind GET `/api/llm/search/status`: the
`daily_search_running` flag is the field the client and
`LLMSearchControls_enhanced.tsx` read; `runs_started` counts the logical
runs begun, so that "no second run is started" is observable. -/
structure SearchTaskState where
  daily_search_running : Bool
  runs_started : Nat
deriving DecidableEq

/-- Response of the POST `/api/llm/search/run-all` trigger. -/
inductive TriggerResponse where
  | started (msg : String)
  | alreadyRunning (msg : String)
deriving DecidableEq

/-- Modelled from the spec: the backend trigger behind
`runLLMSearchForAllDiseases` (`src/unnamed/part_001` holds only its HTTP
client).  Spec sections 4.2 and 5: a single in-flight instance per process;
a second invocation while one is running is reported as already-running,
not queued, and does not start a second run. -/
def runForAllTrigger (st : SearchTaskState) : SearchTaskState × TriggerResponse :=
  if st.daily_search_running then
    (st, TriggerResponse.alreadyRunning "LLM search is already running")
  else
    ({ daily_search_running := true, runs_started := st.runs_started + 1 },
     TriggerResponse.started "LLM search started")

/-- Modelled from the spec: completion of the background run clears the
flag (spec section 9, design notes on the batch-running flag). -/
def runForAllComplete (st : SearchTaskState) : SearchTaskState :=
  { st with daily_search_running := false }

/-! Manual organizations (claim C7). -/

/-- `ManualOrganizationRequest` from `frontend/src/types/index.ts`. -/
structure ManualOrganizationRequest where
  disease_id : String
  name : String
  url : String
  type : OrgType
  description : Option String := none
  notes : Option String := none
deriving DecidableEq

/-- The stored record built from a manual-organization request. -/
def manualOrgOf (now : Nat) (req : ManualOrganizationRequest) :
    EnhancedSupportOrganization :=
  { name := req.name, url := req.url, type := req.type,
    description := req.description, source := OrgSource.manual,
    added_date := now, last_checked := none, is_available := true,
    notes := req.notes, availability_history := [] }

/-- Modelled from the spec: the handler behind POST
`/api/v2/manual/organization` (not under `src/`; `src/unnamed/part_002`
holds only its client `addManualOrganization`).  Spec section 3 invariants:
every URL is unique within a disease's collection — a duplicate URL is
treated as an update, not a new entry; otherwise the record is appended. -/
def addManualOrganization (now : Nat) (c : OrganizationCollection)
    (req : ManualOrganizationRequest) : OrganizationCollection :=
  if c.organizations.any (fun o => o.url == req.url) then
    { c with
      organizations := c.organizations.map
        (fun o => if o.url == req.url then manualOrgOf now req else o),
      last_updated := now }
  else
    { c with
      organizations := c.organizations ++ [manualOrgOf now req],
      last_updated := now }

/-- Modelled from the spec: the handler behind DELETE
`/api/v2/manual/organization/{disease_id}/{url}` (not under `src/`;
`src/unnamed/part_002` holds only its client `deleteOrganization`), keyed
by disease id and URL. -/
def deleteOrganization (now : Nat) (c : OrganizationCollection)
    (url : String) : OrganizationCollection :=
  { c with
    organizations := c.organizations.filter (fun o => o.url != url),
    last_updated := now }

/-! The search service (claim C8). -/

/-- Lower-cased character sequence of a string, the unit of the
case-insensitive comparison. -/
def lcChars (s : String) : List Char := s.data.map Char.toLower

/-- `needle` starts the character list `hay`. -/
def charsStart : List Char → List Char → Bool
  | [], _ => true
  | _ :: _, [] => false
  | a :: as, b :: bs => a == b && charsStart as bs

/-- Substring containment on character lists. -/
def containsSub (needle : List Char) : List Char → Bool
  | [] => charsStart needle []
  | b :: t => charsStart needle (b :: t) || containsSub needle t

/-- Modelled from the spec: the match predicate of the backend search
service behind POST `/api/search` (not under `src/`; `src/unnamed/part_002`
holds only its client `searchDiseases`).  Spec section 4.3: matches free
text against `name_ja`/`name_en`/synonym lists, case-insensitively, by
substring containment; synonym expansion is optional
(`include_synonyms`). -/
def matchesQuery (include_synonyms : Bool) (query : String)
    (d : DiseaseInfo) : Bool :=
  let q := lcChars query
  containsSub q (lcChars d.name_ja) ||
  (match d.name_en with
   | some e => containsSub q (lcChars e)
   | none => false) ||
  (include_synonyms &&
    (d.synonyms_ja.any (fun s => containsSub q (lcChars s)) ||
     d.synonyms_en.any (fun s => containsSub q (lcChars s))))

/-- Modelled from the spec: the backend search service filters the disease
catalog by the match predicate. -/
def searchDiseases (catalog : List DiseaseInfo) (query : String)
    (include_synonyms : Bool) : List DiseaseInfo :=
  catalog.filter (matchesQuery include_synonyms query)

/-! The organization list view (claim C9). -/

/-- Result shape of `groupedOrganizations` in
`frontend/src/components/OrganizationList.tsx`. -/
structure GroupedOrganizations where
  patient : List SupportOrganization
  family : List SupportOrganization
  support : List SupportOrganization

/-- `groupedOrganizations` from
`frontend/src/components/OrganizationList.tsx` lines 32-36. -/
def groupedOrganizations (orgs : List SupportOrganization) : GroupedOrganizations :=
  { patient := orgs.filter (fun org => org.type == OrgType.patient),
    family := orgs.filter (fun org => org.type == OrgType.family),
    support := orgs.filter (fun org => org.type == OrgType.support) }

/-- How many of the three rendered groups contain the organization. -/
def groupsContaining (o : SupportOrganization)
    (orgs : List SupportOrganization) : Nat :=
  (if o ∈ (groupedOrganizations orgs).patient then 1 else 0) +
  (if o ∈ (groupedOrganizations orgs).family then 1 else 0) +
  (if o ∈ (groupedOrganizations orgs).support then 1 else 0)

/-! The LLM client services (claim C10). -/

/-- `LLMModel` from `src/unnamed/part_001`. -/
structure LLMModel where
  name : String
  description : String
deriving DecidableEq

/-- `LLMProvider` from `src/unnamed/part_001`. -/
structure LLMProvider where
  id : String
  name : String
  description : String
  default_url : String
  default_model : String
deriving DecidableEq

/-- `LLMModelsResponse` from `src/unnamed/part_001`. -/
structure LLMModelsResponse where
  models : List LLMModel
  default : String
  note : Option String := none
  error : Option String := none
deriving DecidableEq

/-- `LLMProvidersResponse` from `src/unnamed/part_001`. -/
structure LLMProvidersResponse where
  providers : List LLMProvider
  default : String
  error : Option String := none
deriving DecidableEq

/-- Outcome of the `fetch` call a client service makes: a parsed OK
response, a non-OK response whose body carries a `detail` message, or a
rejected fetch (network failure). -/
inductive FetchOutcome (α : Type) where
  | ok (resp : α)
  | httpError (detail : String)
  | networkFailure (msg : String)

/-- Hard-coded provider fallback list of `getAvailableProviders` in
`src/unnamed/part_001` lines 166-185. -/
def fallbackProviders : List LLMProvider :=
  [{ id := "ollama", name := "Ollama",
     description := "ローカルLLMを実行するためのOllamaフレームワーク",
     default_url := "http://localhost:11434",
     default_model := "mistral:latest" },
   { id := "lmstudio", name := "LM Studio",
     description := "Qwen30B-A3Bなどの大規模モデルを実行するためのLM Studio",
     default_url := "http://localhost:1234/v1",
     default_model := "Qwen30B-A3B" }]

/-- Hard-coded LM Studio model fallback of `getAvailableModels` in
`src/unnamed/part_001` lines 210-215. -/
def lmstudioFallbackModels : List LLMModel :=
  [{ name := "Qwen30B-A3B", description := "高精度な多言語モデル（デフォルト）" },
   { name := "Llama-3-70B-Instruct", description := "最高の精度（M4 Max 128GBで実行可能）" },
   { name := "Phi-3-mini-4k-instruct", description := "軽量で高速（精度は低下）" }]

/-- Hard-coded Ollama model fallback of `getAvailableModels` in
`src/unnamed/part_001` lines 222-226. -/
def ollamaFallbackModels : List LLMModel :=
  [{ name := "mistral:latest", description := "バランスの取れた性能と速度（デフォルト）" },
   { name := "llama3:70b", description := "最高の精度（M4 Max 128GBで実行可能）" },
   { name := "tinyllama:latest", description := "軽量で高速（精度は低下）" }]

/-- The error message the catch block observes: the thrown error's message
for a non-OK response (`errorData.detail` with the literal default when
`detail` is absent), or the rejection message for a network failure. -/
def caughtMessage (onMissingDetail : String) : FetchOutcome α → Option String
  | FetchOutcome.ok _ => none
  | FetchOutcome.httpError detail =>
    some (if detail = "" then onMissingDetail else detail)
  | FetchOutcome.networkFailure msg => some msg

/-- `getAvailableProviders` from `src/unnamed/part_001` lines 154-187: on
an OK response it returns the parsed body; any failure (non-OK response or
rejected fetch) is caught and answered with the hard-coded fallback list,
the error message recorded in the `error` field. -/
def getAvailableProviders (outcome : FetchOutcome LLMProvidersResponse) :
    LLMProvidersResponse :=
  match outcome with
  | FetchOutcome.ok resp => resp
  | other =>
    { providers := fallbackProviders,
      default := "ollama",
      error := caughtMessage "Failed to get available providers" other }

/-- `getAvailableModels` from `src/unnamed/part_001` lines 189-231: on an
OK response it returns the parsed body; any failure is caught and answered
with the hard-coded fallback list — the LM Studio list when `provider` is
`"lmstudio"`, the Ollama list otherwise — with the error message recorded
in the `error` field.  `baseUrl` only shapes the request URL, which the
outcome already abstracts. -/
def getAvailableModels (provider : String) (_baseUrl : String)
    (outcome : FetchOutcome LLMModelsResponse) : LLMModelsResponse :=
  match outcome with
  | FetchOutcome.ok resp => resp
  | other =>
    if provider = "lmstudio" then
      { models := lmstudioFallbackModels,
        default := "Qwen30B-A3B",
        error := caughtMessage "Failed to get available models" other }
    else
      { models := ollamaFallbackModels,
        default := "mistral:latest",
        error := caughtMessage "Failed to get available models" other }

/-! Concrete fixtures used to instantiate the theorems below. -/

/-- An organization still in `extracted` state, not yet machine-verified. -/
def orgExtracted : LLMValidatedOrganization :=
  { id := "org1", name := "Example patient group", url := "http://example.org",
    organization_type := OrgType.patient,
    validation_status := LLMValidationStatus.extracted }

/-- A one-organization collection holding `orgExtracted`. -/
def collectionExtracted : LLMOrganizationCollection :=
  { disease_id := "d1", disease_name := "Example disease",
    organizations := [orgExtracted], last_updated := 0 }

/-- An organization with an empty availability history. -/
def orgFresh : EnhancedSupportOrganization :=
  { name := "Example patient group", url := "http://example.org",
    type := OrgType.patient, source := OrgSource.auto, added_date := 0,
    is_available := false }

/-- A collection holding `orgFresh` and no manual entries. -/
def collFresh : OrganizationCollection :=
  { disease_id := "d1", disease_name := "Example disease",
    organizations := [orgFresh], manual_entries := [], last_updated := 0 }

/-- A manual-organization request whose URL is not in `collFresh`. -/
def reqManual : ManualOrganizationRequest :=
  { disease_id := "d1", name := "Manual group",
    url := "http://manual.example.org", type := OrgType.support }

/-- A disease whose Japanese name does not contain the query 白血病 but
whose Japanese synonyms do. -/
def diseaseCLL : DiseaseInfo :=
  { disease_id := "d2", name_ja := "CLL",
    synonyms_ja := ["慢性リンパ性白血病"], is_intractable := true }

/-- A disease whose Japanese name contains 白血病 literally. -/
def diseaseAcute : DiseaseInfo :=
  { disease_id := "d1", name_ja := "急性骨髄性白血病", is_intractable := true }

/-- A two-disease catalog. -/
def exCatalog : List DiseaseInfo := [diseaseAcute, diseaseCLL]

/-- An organization carrying one of the extended types. -/
def orgMedical : SupportOrganization :=
  { name := "Example hospital", url := "http://hospital.example.org",
    type := OrgType.medical }

/-! Helper lemmas shared by the theorems. -/

/-- A Boolean predicate partitions a list's length. -/
theorem length_filter_partition {α : Type} (l : List α) (p : α → Bool) :
    (l.filter p).length + (l.filter (fun a => !p a)).length = l.length := by
  induction l with
  | nil => rfl
  | cons a t ih =>
    cases h : p a <;> simp [List.filter_cons, h] <;> omega

/-- Available and unavailable organizations partition a collection. -/
theorem counts_partition (orgs : List EnhancedSupportOrganization) :
    countAvailable orgs + countUnavailable orgs = orgs.length :=
  length_filter_partition orgs (fun o => o.is_available)

/-- The global partition is the sum of the per-disease partitions. -/
theorem sum_counts_partition (store : List OrganizationCollection) :
    (store.map (fun c => countAvailable c.organizations)).sum
      + (store.map (fun c => countUnavailable c.organizations)).sum
      = (store.map (fun c => c.organizations.length)).sum := by
  induction store with
  | nil => rfl
  | cons c t ih =>
    have h := counts_partition c.organizations
    simp only [List.map_cons, List.sum_cons]
    omega

/-- The probe record is stamped with the probe time. -/
theorem probeRecord_check_date (url : String) (now : Nat) (outcome : ProbeOutcome) :
    (probeRecord url now outcome).check_date = now := by
  cases outcome <;> rfl

/-! Claim theorems. -/

/-- C4: for every disease, the website status report's
`total_organizations` equals the number of organizations in that disease's
collection and `available_count + unavailable_count = total_organizations`;
for the global report the same accounting holds summed over all diseases
and an `availability_rate` is additionally returned. -/
theorem website_status_accounting (c : OrganizationCollection)
    (store : List OrganizationCollection) :
    (getStatus c).total_organizations = c.organizations.length ∧
    (getStatus c).available_count + (getStatus c).unavailable_count
      = (getStatus c).total_organizations ∧
    (getAllStatus store).total_organizations
      = (store.map (fun x => x.organizations.length)).sum ∧
    (getAllStatus store).available_count + (getAllStatus store).unavailable_count
      = (getAllStatus store).total_organizations ∧
    (getAllStatus store).availability_rate
      = (if (getAllStatus store).total_organizations = 0 then 0
         else ((getAllStatus store).available_count : ℚ)
            / ((getAllStatus store).total_organizations : ℚ)) :=
  ⟨rfl, counts_partition c.organizations, rfl, sum_counts_partition store, rfl⟩

/-- C5: at most one `runForAll` task is in flight per process — whenever
the task state already shows a run in progress, triggering `runForAll`
again returns an already-running response, leaves the state unchanged, and
starts no second run. -/
theorem runForAll_single_flight (st : SearchTaskState)
    (h : st.daily_search_running = true) :
    runForAllTrigger st
      = (st, TriggerResponse.alreadyRunning "LLM search is already running") ∧
    (runForAllTrigger st).1.runs_started = st.runs_started ∧
    (runForAllTrigger st).1.daily_search_running = true := by
  simp [runForAllTrigger, h]

/-- Witness for C5 at the concrete state with a run in flight. -/
theorem runForAll_single_flight_witness :
    runForAllTrigger { daily_search_running := true, runs_started := 1 }
      = ({ daily_search_running := true, runs_started := 1 },
         TriggerResponse.alreadyRunning "LLM search is already running") ∧
    (runForAllTrigger { daily_search_running := true, runs_started := 1 }).1.runs_started
      = ({ daily_search_running := true, runs_started := 1 } : SearchTaskState).runs_started ∧
    (runForAllTrigger { daily_search_running := true, runs_started := 1 }).1.daily_search_running
      = true :=
  runForAll_single_flight { daily_search_running := true, runs_started := 1 } rfl

/-- C2: every transition of the validation-status state machine either
resets to `pending` (the only backward move), ends in the terminal
`rejected`, or advances strictly forward along
pending, extracted, verified, human_approved; `human_approved` is reached
only from `verified` (so `pending` never jumps to `human_approved`), a
direct `pending` to `verified` move forces `two_step_validation` to be
disabled, and `rejected` is entered only from `verified`. -/
theorem validation_status_forward (cfg : PipelineConfig)
    (s t : LLMValidationStatus) (h : StatusStep cfg s t) :
    (t = LLMValidationStatus.pending ∨ t = LLMValidationStatus.rejected ∨
       statusRank s < statusRank t) ∧
    (t = LLMValidationStatus.human_approved → s = LLMValidationStatus.verified) ∧
    (s = LLMValidationStatus.pending → t = LLMValidationStatus.verified →
       cfg.two_step_validation = false) ∧
    (t = LLMValidationStatus.rejected → s = LLMValidationStatus.verified) := by
  cases h <;> simp_all [statusRank]

/-- Witness for C2 at the concrete pending-to-extracted step under both
toggles enabled. -/
theorem validation_status_forward_witness :
    (LLMValidationStatus.extracted = LLMValidationStatus.pending ∨
       LLMValidationStatus.extracted = LLMValidationStatus.rejected ∨
       statusRank LLMValidationStatus.pending
         < statusRank LLMValidationStatus.extracted) ∧
    (LLMValidationStatus.extracted = LLMValidationStatus.human_approved →
       LLMValidationStatus.pending = LLMValidationStatus.verified) ∧
    (LLMValidationStatus.pending = LLMValidationStatus.pending →
       LLMValidationStatus.extracted = LLMValidationStatus.verified →
       (PipelineConfig.mk true true).two_step_validation = false) ∧
    (LLMValidationStatus.extracted = LLMValidationStatus.rejected →
       LLMValidationStatus.pending = LLMValidationStatus.verified) :=
  validation_status_forward (PipelineConfig.mk true true)
    LLMValidationStatus.pending LLMValidationStatus.extracted StatusStep.extract

/-- C10: `getAvailableProviders` and `getAvailableModels` are total at the
client interface — an OK response is returned as parsed, and every failure
outcome (non-OK response or network failure) is answered with the
hard-coded fallback list (for `getAvailableModels` the fallback depends on
whether the provider is `lmstudio`) with the error message recorded in the
response's `error` field rather than thrown. -/
theorem llm_client_fallback_total (detail msg provider baseUrl : String)
    (presp : LLMProvidersResponse) (mresp : LLMModelsResponse) :
    getAvailableProviders (FetchOutcome.ok presp) = presp ∧
    (getAvailableProviders (FetchOutcome.httpError detail)).providers
      = fallbackProviders ∧
    (getAvailableProviders (FetchOutcome.httpError detail)).error.isSome = true ∧
    (getAvailableProviders (FetchOutcome.networkFailure msg)).providers
      = fallbackProviders ∧
    (getAvailableProviders (FetchOutcome.networkFailure msg)).error = some msg ∧
    getAvailableModels provider baseUrl (FetchOutcome.ok mresp) = mresp ∧
    (getAvailableModels provider baseUrl (FetchOutcome.networkFailure msg)).models
      = (if provider = "lmstudio" then lmstudioFallbackModels
         else ollamaFallbackModels) ∧
    (getAvailableModels provider baseUrl (FetchOutcome.networkFailure msg)).error
      = some msg ∧
    (getAvailableModels provider baseUrl (FetchOutcome.httpError detail)).error.isSome
      = true := by
  refine ⟨rfl, rfl, rfl, rfl, rfl, rfl, ?_, ?_, ?_⟩ <;>
    by_cases hp : provider = "lmstudio" <;>
      simp [getAvailableModels, caughtMessage, hp]

/-- C1: human validation of an organization that is not currently in
`verified` state returns a conflict error and leaves the collection —
hence the organization's `validation_status` — unchanged; it succeeds only
on organizations in `verified` state, which move to `human_approved` when
`approve` is true and to `rejected` when it is false. -/
theorem validate_requires_verified (now : Nat) (c : LLMOrganizationCollection)
    (orgId : String) (req : LLMValidationRequest)
    (org : LLMValidatedOrganization)
    (hfind : c.organizations.find? (fun o => o.id == orgId) = some org) :
    (org.validation_status ≠ LLMValidationStatus.verified →
       validateCollection now c orgId req
         = (c, Except.error (ValidationError.conflict conflictMsg))) ∧
    (org.validation_status = LLMValidationStatus.verified →
       (validateCollection now c orgId req).2 = Except.ok () ∧
       ∀ o ∈ (validateCollection now c orgId req).1.organizations,
         o.id = orgId →
           o.validation_status
             = (if req.approve then LLMValidationStatus.human_approved
                else LLMValidationStatus.rejected) ∧
           o.human_verified = true) := by
  constructor
  · intro hne
    simp [validateCollection, hfind, hne]
  · intro hv
    simp only [validateCollection, hfind, hv, if_pos]
    refine ⟨trivial, ?_⟩
    intro o ho hid
    rcases List.mem_map.mp ho with ⟨x, hx, hfx⟩
    by_cases h2 : (x.id == orgId) = true
    · rw [if_pos h2] at hfx
      subst hfx
      constructor
      · by_cases ha : req.approve <;> simp [applyDecision, ha]
      · rfl
    · rw [if_neg h2] at hfx
      subst hfx
      exact absurd (beq_iff_eq.mpr hid) h2

/-- Witness for C1 at a concrete collection whose only organization is in
`extracted` state. -/
theorem validate_requires_verified_witness :
    (orgExtracted.validation_status ≠ LLMValidationStatus.verified →
       validateCollection 1 collectionExtracted "org1"
           { validation_notes := none, approve := true }
         = (collectionExtracted,
            Except.error (ValidationError.conflict conflictMsg))) ∧
    (orgExtracted.validation_status = LLMValidationStatus.verified →
       (validateCollection 1 collectionExtracted "org1"
           { validation_notes := none, approve := true }).2 = Except.ok () ∧
       ∀ o ∈ (validateCollection 1 collectionExtracted "org1"
           { validation_notes := none, approve := true }).1.organizations,
         o.id = "org1" →
           o.validation_status
             = (if ({ validation_notes := none, approve := true }
                    : LLMValidationRequest).approve
                then LLMValidationStatus.human_approved
                else LLMValidationStatus.rejected) ∧
           o.human_verified = true) :=
  validate_requires_verified 1 collectionExtracted "org1"
    { validation_notes := none, approve := true } orgExtracted rfl

/-- C3: a probe appends exactly one new record to the organization's
availability history — every previously recorded entry is still present
unchanged and in its original position — and the history stays
non-decreasing in `check_date`; the batch operations `checkAllForDisease`
and `checkAll` apply this same per-URL probe pointwise, preserving every
organization's position. -/
theorem availability_history_append_only (now : Nat) (outcome : ProbeOutcome)
    (org : EnhancedSupportOrganization) (outcomes : String → ProbeOutcome)
    (c : OrganizationCollection) (store : List OrganizationCollection)
    (i j : Nat)
    (hnow : ∀ r ∈ org.availability_history, r.check_date ≤ now)
    (hsort : historySorted org.availability_history) :
    (checkOne now outcome org).availability_history
      = org.availability_history ++ [probeRecord org.url now outcome] ∧
    historySorted (checkOne now outcome org).availability_history ∧
    (checkAllForDisease now outcomes c).organizations[i]?
      = (c.organizations[i]?).map (fun o => checkOne now (outcomes o.url) o) ∧
    (checkAll now outcomes store)[j]?
      = (store[j]?).map (checkAllForDisease now outcomes) := by
  refine ⟨rfl, ?_, ?_, ?_⟩
  · show historySorted
      (org.availability_history ++ [probeRecord org.url now outcome])
    unfold historySorted at hsort ⊢
    rw [List.pairwise_append]
    refine ⟨hsort, by simp, ?_⟩
    intro a ha b hb
    rw [List.mem_singleton] at hb
    subst hb
    rw [probeRecord_check_date]
    exact hnow a ha
  · simp [checkAllForDisease, List.getElem?_map]
  · simp [checkAll, List.getElem?_map]

/-- Witness for C3 at a concrete organization with empty history, probed
with an HTTP 200 outcome at time 5. -/
theorem availability_history_append_only_witness :
    (checkOne 5 (ProbeOutcome.http 200 3) orgFresh).availability_history
      = orgFresh.availability_history
          ++ [probeRecord orgFresh.url 5 (ProbeOutcome.http 200 3)] ∧
    historySorted (checkOne 5 (ProbeOutcome.http 200 3) orgFresh).availability_history ∧
    (checkAllForDisease 5 (fun _ => ProbeOutcome.http 200 3) collFresh).organizations[0]?
      = (collFresh.organizations[0]?).map
          (fun o => checkOne 5 ((fun _ => ProbeOutcome.http 200 3) o.url) o) ∧
    (checkAll 5 (fun _ => ProbeOutcome.http 200 3) [collFresh])[0]?
      = ([collFresh][0]?).map
          (checkAllForDisease 5 (fun _ => ProbeOutcome.http 200 3)) :=
  availability_history_append_only 5 (ProbeOutcome.http 200 3) orgFresh
    (fun _ => ProbeOutcome.http 200 3) collFresh [collFresh] 0 0
    (by simp [orgFresh]) (by simp [orgFresh, historySorted])

/-- C6: a probe never surfaces a network failure as a thrown error — every
unavailable outcome carries a populated `error_message`, and `checkOne`
records a transport failure as an `is_available=false` data point; probing
a URL answering HTTP 500 yields `is_available=false`, `status_code=500` and
a non-empty `error_message`, while HTTP 200 yields `is_available=true`,
`status_code=200` and `response_time_ms > 0`. -/
theorem probe_failure_recorded (url : String) (now ms : Nat) (msg : String)
    (org : EnhancedSupportOrganization) (hms : 0 < ms) :
    (∀ outcome, (probeRecord url now outcome).is_available = false →
       (probeRecord url now outcome).error_message ≠ none) ∧
    (checkOne now (ProbeOutcome.transportFailure msg) org).is_available = false ∧
    (probeRecord url now (ProbeOutcome.transportFailure msg)).error_message
      = some msg ∧
    (probeRecord url now (ProbeOutcome.http 500 ms)).is_available = false ∧
    (probeRecord url now (ProbeOutcome.http 500 ms)).status_code = some 500 ∧
    (∃ e, (probeRecord url now (ProbeOutcome.http 500 ms)).error_message
            = some e ∧ e ≠ "") ∧
    (probeRecord url now (ProbeOutcome.http 200 ms)).is_available = true ∧
    (probeRecord url now (ProbeOutcome.http 200 ms)).status_code = some 200 ∧
    (∃ t, (probeRecord url now (ProbeOutcome.http 200 ms)).response_time_ms
            = some t ∧ 0 < t) := by
  refine ⟨?_, rfl, rfl, rfl, rfl, ⟨"HTTP error: 500", rfl, by decide⟩,
          rfl, rfl, ⟨ms, rfl, hms⟩⟩
  intro outcome hfail
  cases outcome with
  | http code t =>
    simp only [probeRecord] at hfail ⊢
    simp [hfail]
  | transportFailure m =>
    simp [probeRecord]

/-- Witness for C6 at a concrete URL, time 7 and latency 3. -/
theorem probe_failure_recorded_witness :
    (∀ outcome,
       (probeRecord "http://example.org" 7 outcome).is_available = false →
       (probeRecord "http://example.org" 7 outcome).error_message ≠ none) ∧
    (checkOne 7 (ProbeOutcome.transportFailure "connection refused") orgFresh).is_available
      = false ∧
    (probeRecord "http://example.org" 7
        (ProbeOutcome.transportFailure "connection refused")).error_message
      = some "connection refused" ∧
    (probeRecord "http://example.org" 7 (ProbeOutcome.http 500 3)).is_available
      = false ∧
    (probeRecord "http://example.org" 7 (ProbeOutcome.http 500 3)).status_code
      = some 500 ∧
    (∃ e, (probeRecord "http://example.org" 7
             (ProbeOutcome.http 500 3)).error_message = some e ∧ e ≠ "") ∧
    (probeRecord "http://example.org" 7 (ProbeOutcome.http 200 3)).is_available
      = true ∧
    (probeRecord "http://example.org" 7 (ProbeOutcome.http 200 3)).status_code
      = some 200 ∧
    (∃ t, (probeRecord "http://example.org" 7
             (ProbeOutcome.http 200 3)).response_time_ms = some t ∧ 0 < t) :=
  probe_failure_recorded "http://example.org" 7 3 "connection refused"
    orgFresh (by decide)

/-- C7: adding a manual organization to a collection that does not already
hold its URL appends exactly that record, which carries `source = manual`;
deleting it again (keyed by URL) removes exactly that organization,
restoring the original organization list and leaving every manual entry of
the disease untouched. -/
theorem manual_org_round_trip (tAdd tDel : Nat) (c : OrganizationCollection)
    (req : ManualOrganizationRequest)
    (hfresh : ∀ o ∈ c.organizations, o.url ≠ req.url) :
    (addManualOrganization tAdd c req).organizations
      = c.organizations ++ [manualOrgOf tAdd req] ∧
    manualOrgOf tAdd req ∈ (addManualOrganization tAdd c req).organizations ∧
    (manualOrgOf tAdd req).source = OrgSource.manual ∧
    (deleteOrganization tDel (addManualOrganization tAdd c req) req.url).organizations
      = c.organizations ∧
    (deleteOrganization tDel (addManualOrganization tAdd c req) req.url).manual_entries
      = c.manual_entries := by
  have hany : c.organizations.any (fun o => o.url == req.url) = false := by
    rw [List.any_eq_false]
    intro o ho
    simp [hfresh o ho]
  have hadd : (addManualOrganization tAdd c req).organizations
      = c.organizations ++ [manualOrgOf tAdd req] := by
    simp [addManualOrganization, hany]
  refine ⟨hadd, ?_, rfl, ?_, ?_⟩
  · rw [hadd]
    exact List.mem_append_right _ (List.mem_singleton_self _)
  · show ((addManualOrganization tAdd c req).organizations.filter
        (fun o => o.url != req.url)) = c.organizations
    rw [hadd, List.filter_append]
    have h1 : c.organizations.filter (fun o => o.url != req.url)
        = c.organizations := by
      rw [List.filter_eq_self]
      intro o ho
      simp [hfresh o ho]
    have h2 : [manualOrgOf tAdd req].filter (fun o => o.url != req.url)
        = [] := by
      simp [manualOrgOf]
    rw [h1, h2, List.append_nil]
  · show (addManualOrganization tAdd c req).manual_entries = c.manual_entries
    simp [addManualOrganization, hany]

/-- Witness for C7 at the concrete collection `collFresh` and the request
`reqManual`, whose URL is new to the collection. -/
theorem manual_org_round_trip_witness :
    (addManualOrganization 2 collFresh reqManual).organizations
      = collFresh.organizations ++ [manualOrgOf 2 reqManual] ∧
    manualOrgOf 2 reqManual ∈ (addManualOrganization 2 collFresh reqManual).organizations ∧
    (manualOrgOf 2 reqManual).source = OrgSource.manual ∧
    (deleteOrganization 3 (addManualOrganization 2 collFresh reqManual)
        reqManual.url).organizations
      = collFresh.organizations ∧
    (deleteOrganization 3 (addManualOrganization 2 collFresh reqManual)
        reqManual.url).manual_entries
      = collFresh.manual_entries :=
  manual_org_round_trip 2 3 collFresh reqManual (by decide)

/-- C8: the search service's matches without synonym expansion are a subset
of the matches with it, and every catalog disease one of whose Japanese
synonyms contains the query as a (case-insensitive) substring is returned
when `include_synonyms` is enabled, whether or not its `name_ja` contains
the query. -/
theorem search_synonyms_superset (catalog : List DiseaseInfo) (query : String)
    (d : DiseaseInfo)
    (h : d ∈ searchDiseases catalog query false ∨
         (d ∈ catalog ∧
          d.synonyms_ja.any
            (fun s => containsSub (lcChars query) (lcChars s)) = true)) :
    d ∈ searchDiseases catalog query true := by
  rcases h with h | ⟨hmem, hsyn⟩
  · rw [searchDiseases, List.mem_filter] at h ⊢
    refine ⟨h.1, ?_⟩
    have h2 := h.2
    simp only [matchesQuery, Bool.false_and, Bool.or_false] at h2
    simp only [matchesQuery, Bool.true_and]
    simp only [Bool.or_eq_true] at h2 ⊢
    rcases h2 with h3 | h3 <;> simp [h3]
  · rw [searchDiseases, List.mem_filter]
    refine ⟨hmem, ?_⟩
    simp [matchesQuery, hsyn]

/-- Witness for C8: the query 白血病 does not occur in `diseaseCLL`'s
Japanese name, yet the disease is returned because a Japanese synonym
matches. -/
theorem search_synonyms_superset_witness :
    containsSub (lcChars "白血病") (lcChars diseaseCLL.name_ja) = false ∧
    diseaseCLL ∈ searchDiseases exCatalog "白血病" true :=
  ⟨by rfl,
   search_synonyms_superset exCatalog "白血病" diseaseCLL
     (Or.inr ⟨by simp [exCatalog], by rfl⟩)⟩

/-- C9: the organization list view partitions its input into the three
groups patient, family and support — every organization of one of these
three types appears in exactly one rendered group, and an organization
carrying an extended type (medical, research, government) appears in
none. -/
theorem orgList_partitions_core_types (orgs : List SupportOrganization)
    (o : SupportOrganization) (h : o ∈ orgs) :
    groupsContaining o orgs
      = (if o.type = OrgType.patient ∨ o.type = OrgType.family ∨
            o.type = OrgType.support then 1 else 0) := by
  unfold groupsContaining groupedOrganizations
  cases htype : o.type <;>
    simp [List.mem_filter, beq_iff_eq, h, htype]

/-- Witness for C9 at a one-element list holding an organization of the
extended type medical, which lands in none of the three groups. -/
theorem orgList_partitions_core_types_witness :
    groupsContaining orgMedical [orgMedical]
      = (if orgMedical.type = OrgType.patient ∨
            orgMedical.type = OrgType.family ∨
            orgMedical.type = OrgType.support then 1 else 0) :=
  orgList_partitions_core_types [orgMedical] orgMedical
    (List.mem_cons_self _ _)

end DiseaseSupport
